import Mathlib

/-
Verification of the jpegtran transform layer (jpegtran/transform.py):
the EXIF orientation permutation tables, the geometric transform methods
of `JPEGImage` (rotate / flip / transpose / transverse / crop / downscale),
the `exif_autotransform` dispatcher and the `_update_thumbnail`
consistency step.

The pixel / EXIF codec (`jpegtran.lib.Transformation`, `jpegtran.lib.Exif`)
is an external collaborator whose source is not part of the verified
tree; it is modelled from the specification as a state transformer over
an abstract image value recording width, height, the optional EXIF
orientation tag and the optional embedded thumbnail.  Python `ValueError`
validation failures are modelled as `Err.invalidParameter`, the missing
orientation failure of `exif_autotransform` as `Err.missingMetadata`,
the thumbnail-setter failure as `Err.noExistingThumbnail`, and a
dictionary lookup failure as `Err.keyError`.  The float expression
`int(160/(width/height))` is modelled by the exact rational floor
`160 * height / width` corrected at the six width:height ratios where
CPython's IEEE round-to-nearest-even double arithmetic undershoots the
exact floor by one (see `float_target_low`); on JPEG's 16-bit dimension
domain this is exactly the program's arithmetic.  The other branch,
`int(160*(width/height))`, coincides with the exact floor
`160 * width / height` on that domain.
-/

set_option autoImplicit false
set_option linter.unusedVariables false

namespace Jpegtran

/-- Failure modes of the transform layer (Python exceptions). -/
inductive Err where
  | invalidParameter
  | missingMetadata
  | noExistingThumbnail
  | keyError
  deriving DecidableEq, Repr

/-- Abstract observable state of a `JPEGImage` handle: pixel dimensions,
the optional EXIF orientation tag, and the optional embedded EXIF
thumbnail (itself a complete image blob, hence recursively an `Img`). -/
inductive Img : Type where
  | mk (width height : Nat) (exif_orientation : Option Nat)
       (exif_thumbnail : Option Img) : Img

/-- Width of the image in pixels (`JPEGImage.width`). -/
def Img.width : Img → Nat
  | .mk w _ _ _ => w

/-- Height of the image in pixels (`JPEGImage.height`). -/
def Img.height : Img → Nat
  | .mk _ h _ _ => h

/-- EXIF orientation tag (`JPEGImage.exif_orientation` getter): `none`
models the `ExifException`-caught absent-tag case. -/
def Img.exif_orientation : Img → Option Nat
  | .mk _ _ o _ => o

/-- Embedded EXIF thumbnail (`JPEGImage.exif_thumbnail` getter): `none`
models the `ExifException`-caught absent-thumbnail case. -/
def Img.exif_thumbnail : Img → Option Img
  | .mk _ _ _ t => t

@[simp] theorem Img.width_mk (w h : Nat) (o : Option Nat) (t : Option Img) :
    (Img.mk w h o t).width = w := rfl

@[simp] theorem Img.height_mk (w h : Nat) (o : Option Nat) (t : Option Img) :
    (Img.mk w h o t).height = h := rfl

@[simp] theorem Img.exif_orientation_mk (w h : Nat) (o : Option Nat) (t : Option Img) :
    (Img.mk w h o t).exif_orientation = o := rfl

@[simp] theorem Img.exif_thumbnail_mk (w h : Nat) (o : Option Nat) (t : Option Img) :
    (Img.mk w h o t).exif_thumbnail = t := rfl

/-- EXIF_ROT_MAP: the rotation orientation dictionary-of-dictionaries,
keyed by angle; modelled as an association list. -/
def EXIF_ROT_MAP_TABLE : List (Nat × List (Nat × Nat)) :=
  [(90,  [(1, 8), (8, 3), (3, 6), (6, 1), (2, 7), (7, 4), (4, 5), (5, 2)]),
   (180, [(1, 3), (3, 1), (2, 4), (4, 2), (5, 7), (7, 5), (6, 8), (8, 6)]),
   (270, [(1, 6), (6, 3), (3, 8), (8, 1), (2, 5), (5, 4), (4, 7), (7, 2)])]

/-- Lookup `EXIF_ROT_MAP[angle][o]`; a missing key at either level
yields `none` (Python `KeyError`). -/
def EXIF_ROT_MAP (angle : Nat) (o : Nat) : Option Nat :=
  (EXIF_ROT_MAP_TABLE.lookup angle).bind fun m => m.lookup o

/-- EXIF_FLIP_MAP: the flip orientation dictionary-of-dictionaries,
keyed by direction string; modelled as an association list. -/
def EXIF_FLIP_MAP_TABLE : List (String × List (Nat × Nat)) :=
  [("horizontal", [(1, 2), (2, 1), (3, 4), (4, 3), (5, 6), (6, 5), (7, 8), (8, 7)]),
   ("vertical",   [(1, 4), (4, 1), (2, 3), (3, 2), (5, 8), (8, 5), (6, 7), (7, 6)])]

/-- Lookup `EXIF_FLIP_MAP[direction][o]`. -/
def EXIF_FLIP_MAP (direction : String) (o : Nat) : Option Nat :=
  (EXIF_FLIP_MAP_TABLE.lookup direction).bind fun m => m.lookup o

/-- EXIF_TRANSPOSE_MAP orientation dictionary. -/
def EXIF_TRANSPOSE_MAP_TABLE : List (Nat × Nat) :=
  [(1, 5), (5, 1), (2, 6), (6, 2), (3, 7), (7, 3), (4, 8), (8, 4)]

/-- Lookup `EXIF_TRANSPOSE_MAP[o]`. -/
def EXIF_TRANSPOSE_MAP (o : Nat) : Option Nat :=
  EXIF_TRANSPOSE_MAP_TABLE.lookup o

/-- EXIF_TRANVERSE_MAP orientation dictionary (source spelling kept). -/
def EXIF_TRANVERSE_MAP_TABLE : List (Nat × Nat) :=
  [(1, 7), (7, 1), (2, 8), (8, 2), (3, 5), (5, 3), (4, 6), (6, 4)]

/-- Lookup `EXIF_TRANVERSE_MAP[o]`. -/
def EXIF_TRANVERSE_MAP (o : Nat) : Option Nat :=
  EXIF_TRANVERSE_MAP_TABLE.lookup o

/-- Python `x or 1` on the orientation getter result: `None` and `0` are
falsy and default to `1`. -/
def orDefault : Option Nat → Nat
  | none => 1
  | some 0 => 1
  | some (n + 1) => n + 1

/-- Modelled from the spec: `lib.Transformation(data).rotate(angle)` —
the Lossless Transform Codec's rotation.  The spec pins that rotation by
90 or 270 swaps the pixel dimensions while 180 keeps them, and that the
lossless transform rearranges compressed blocks, carrying the EXIF
segment (orientation tag and thumbnail) along unchanged. -/
def Transformation_rotate (img : Img) (angle : Nat) : Img :=
  if angle = 180 then
    Img.mk img.width img.height img.exif_orientation img.exif_thumbnail
  else
    Img.mk img.height img.width img.exif_orientation img.exif_thumbnail

/-- Modelled from the spec: `lib.Transformation(data).flip(direction)` —
a flip keeps the pixel dimensions and carries the EXIF segment along. -/
def Transformation_flip (img : Img) (direction : String) : Img :=
  Img.mk img.width img.height img.exif_orientation img.exif_thumbnail

/-- Modelled from the spec: `lib.Transformation(data).transpose()` —
a transposition swaps the pixel dimensions and carries the EXIF segment
along. -/
def Transformation_transpose (img : Img) : Img :=
  Img.mk img.height img.width img.exif_orientation img.exif_thumbnail

/-- Modelled from the spec: `lib.Transformation(data).transverse()` —
a transverse transposition swaps the pixel dimensions and carries the
EXIF segment along. -/
def Transformation_transverse (img : Img) : Img :=
  Img.mk img.height img.width img.exif_orientation img.exif_thumbnail

/-- Modelled from the spec: `lib.Transformation(data).crop(x, y, w, h)` —
the cropped image has exactly the requested dimensions and carries the
EXIF segment along. -/
def Transformation_crop (img : Img) (x y w h : Nat) : Img :=
  Img.mk w h img.exif_orientation img.exif_thumbnail

/-- Modelled from the spec: `lib.Transformation(data).scale(w, h, q)` —
the scaled image has exactly the requested dimensions; per the spec's
thumbnail-recursion termination argument (§4.3 step 4) the scaled
result's own embedded-thumbnail query returns absent. -/
def Transformation_scale (img : Img) (w h q : Nat) : Img :=
  Img.mk w h img.exif_orientation none

/-- JPEGImage.exif_orientation setter: rejects values outside
`0 < value < 9` with `ValueError`, otherwise overwrites the tag in
place. -/
def set_exif_orientation (img : Img) (value : Nat) : Except Err Img :=
  if 0 < value ∧ value < 9 then
    .ok (Img.mk img.width img.height (some value) img.exif_thumbnail)
  else
    .error Err.invalidParameter

/-- JPEGImage.exif_thumbnail setter: fails with `ValueError`
("No pre-existing thumbnail found") when no thumbnail exists, otherwise
overwrites the embedded thumbnail bytes in place. -/
def set_exif_thumbnail (img : Img) (t : Img) : Except Err Img :=
  match img.exif_thumbnail with
  | none => .error Err.noExistingThumbnail
  | some _ => .ok (Img.mk img.width img.height img.exif_orientation (some t))

/-- The body of `JPEGImage.downscale` with the trailing
`new._update_thumbnail()` call elided.  Because `Transformation_scale`
yields an image with no embedded thumbnail, that trailing call is a
no-op there, so this function is extensionally equal to `downscale`
(theorem `downscale_aux_eq_downscale`); the stratification only serves
Lean's termination checker for the mutual call from
`update_thumbnail`. -/
def downscale_aux (img : Img) (w h q : Nat) : Except Err Img :=
  if w = img.width ∧ h = img.height then .ok img
  else if w > img.width ∨ h > img.height then .error Err.invalidParameter
  else .ok (Transformation_scale img w h q)

/-- The `target_width` local of `JPEGImage._update_thumbnail`; on JPEG's
16-bit dimension domain the float expression `int(160*(width/height))`
coincides with the exact rational floor `160 * width / height` at every
integer point. -/
def target_width (img : Img) : Nat :=
  if img.width > img.height then 160 else 160 * img.width / img.height

/-- Width:height ratios at which CPython's `int(160/(width/height))`
(IEEE round-to-nearest-even doubles) yields one less than the exact
floor `160 * height / width`: exactly w:h in {160:29, 160:53, 80:29,
80:53, 40:29, 160:119}; at every other dimension pair in JPEG's 16-bit
range the float and the exact floor agree (verified by exact integer
simulation of the double rounding). -/
def float_target_low (w h : Nat) : Bool :=
  29 * w == 160 * h || 53 * w == 160 * h || 29 * w == 80 * h ||
    53 * w == 80 * h || 29 * w == 40 * h || 119 * w == 160 * h

/-- The `target_height` local of `JPEGImage._update_thumbnail`: CPython
evaluates `int(160/(self.width/self.height))` in IEEE double
arithmetic, which equals the exact rational floor `160 * height / width`
except at the ratios of `float_target_low`, where the correctly rounded
double quotient falls just below the integer and truncation yields one
less. -/
def target_height (img : Img) : Nat :=
  if img.width > img.height then
    if float_target_low img.width img.height then
      160 * img.height / img.width - 1
    else
      160 * img.height / img.width
  else 160

/-- JPEGImage._update_thumbnail: regenerate the embedded thumbnail after
a transform.  No-op when no thumbnail is present; computes the
160-longer-side target dimensions; skips when both targets exceed the
primary dimensions; otherwise downscales the image to the target (with
the default quality 75) and writes the result as the thumbnail. -/
def update_thumbnail (img : Img) : Except Err Img :=
  match img.exif_thumbnail with
  | none => .ok img
  | some _ =>
    if target_width img > img.width ∧ target_height img > img.height then .ok img
    else
      match downscale_aux img (target_width img) (target_height img) 75 with
      | .error e => .error e
      | .ok updated => set_exif_thumbnail img updated

/-- JPEGImage.downscale: identity when the target equals the current
dimensions (the very same handle is returned, no codec call); rejects
any upscale; otherwise scales through the codec and runs the thumbnail
consistency step on the result. -/
def downscale (img : Img) (w h q : Nat) : Except Err Img :=
  if w = img.width ∧ h = img.height then .ok img
  else if w > img.width ∨ h > img.height then .error Err.invalidParameter
  else update_thumbnail (Transformation_scale img w h q)

/-- JPEGImage.rotate: validates the angle, rotates through the codec,
optionally rewrites the orientation tag via `EXIF_ROT_MAP` applied to
the (transformed) image's orientation defaulted through Python `or 1`,
then runs the thumbnail consistency step. -/
def rotate (img : Img) (angle : Nat) (with_exif : Bool) : Except Err Img :=
  if ¬(angle = 90 ∨ angle = 180 ∨ angle = 270) then .error Err.invalidParameter
  else
    let img1 := Transformation_rotate img angle
    let step :=
      if with_exif then
        match EXIF_ROT_MAP angle (orDefault img1.exif_orientation) with
        | none => Except.error Err.keyError
        | some v => set_exif_orientation img1 v
      else Except.ok img1
    match step with
    | .error e => .error e
    | .ok img2 => update_thumbnail img2

/-- JPEGImage.flip: validates the direction string, flips through the
codec, optionally rewrites the orientation tag via `EXIF_FLIP_MAP`, then
runs the thumbnail consistency step. -/
def flip (img : Img) (direction : String) (with_exif : Bool) : Except Err Img :=
  if ¬(direction = "horizontal" ∨ direction = "vertical") then
    .error Err.invalidParameter
  else
    let img1 := Transformation_flip img direction
    let step :=
      if with_exif then
        match EXIF_FLIP_MAP direction (orDefault img1.exif_orientation) with
        | none => Except.error Err.keyError
        | some v => set_exif_orientation img1 v
      else Except.ok img1
    match step with
    | .error e => .error e
    | .ok img2 => update_thumbnail img2

/-- JPEGImage.transpose: transposes through the codec, optionally
rewrites the orientation tag via `EXIF_TRANSPOSE_MAP`, then runs the
thumbnail consistency step. -/
def transpose (img : Img) (with_exif : Bool) : Except Err Img :=
  let img1 := Transformation_transpose img
  let step :=
    if with_exif then
      match EXIF_TRANSPOSE_MAP (orDefault img1.exif_orientation) with
      | none => Except.error Err.keyError
      | some v => set_exif_orientation img1 v
    else Except.ok img1
  match step with
  | .error e => .error e
  | .ok img2 => update_thumbnail img2

/-- JPEGImage.transverse: transverse-transposes through the codec,
optionally rewrites the orientation tag via `EXIF_TRANVERSE_MAP`, then
runs the thumbnail consistency step. -/
def transverse (img : Img) (with_exif : Bool) : Except Err Img :=
  let img1 := Transformation_transverse img
  let step :=
    if with_exif then
      match EXIF_TRANVERSE_MAP (orDefault img1.exif_orientation) with
      | none => Except.error Err.keyError
      | some v => set_exif_orientation img1 v
    else Except.ok img1
  match step with
  | .error e => .error e
  | .ok img2 => update_thumbnail img2

/-- JPEGImage.crop: validates the crop rectangle against the current
dimensions, crops through the codec, then runs the thumbnail
consistency step. -/
def crop (img : Img) (x y w h : Nat) : Except Err Img :=
  if ¬(x < img.width ∧ y < img.height ∧
        x + w ≤ img.width ∧ y + h ≤ img.height) then
    .error Err.invalidParameter
  else
    update_thumbnail (Transformation_crop img x y w h)

/-- JPEGImage.exif_autotransform: dispatch on the orientation tag; fails
when no tag is present; orientation 1 returns the same handle; values
outside 1..8 fall through every branch and return Python `None`,
modelled as `.ok none`. -/
def exif_autotransform (img : Img) : Except Err (Option Img) :=
  match img.exif_orientation with
  | none => .error Err.missingMetadata
  | some orient =>
    if orient = 1 then .ok (some img)
    else if orient = 2 then (flip img "horizontal" true).map some
    else if orient = 3 then (rotate img 180 true).map some
    else if orient = 4 then (flip img "vertical" true).map some
    else if orient = 5 then (transpose img true).map some
    else if orient = 6 then (rotate img 90 true).map some
    else if orient = 7 then (transverse img true).map some
    else if orient = 8 then (rotate img 270 true).map some
    else .ok none

/-! ### Basic lemmas about the codec model and the thumbnail step -/

@[simp] theorem Transformation_rotate_exif_orientation (img : Img) (a : Nat) :
    (Transformation_rotate img a).exif_orientation = img.exif_orientation := by
  unfold Transformation_rotate; split <;> rfl

@[simp] theorem Transformation_flip_exif_orientation (img : Img) (d : String) :
    (Transformation_flip img d).exif_orientation = img.exif_orientation := rfl

@[simp] theorem Transformation_transpose_exif_orientation (img : Img) :
    (Transformation_transpose img).exif_orientation = img.exif_orientation := rfl

@[simp] theorem Transformation_transverse_exif_orientation (img : Img) :
    (Transformation_transverse img).exif_orientation = img.exif_orientation := rfl

@[simp] theorem Transformation_crop_exif_orientation (img : Img) (x y w h : Nat) :
    (Transformation_crop img x y w h).exif_orientation = img.exif_orientation := rfl

/-- The stratified downscale body agrees with the real `downscale` on
every input: on the scale path the trailing thumbnail step of
`downscale` is a no-op because the scaled image carries no thumbnail. -/
theorem downscale_aux_eq_downscale (img : Img) (w h q : Nat) :
    downscale_aux img w h q = downscale img w h q := by
  unfold downscale_aux downscale
  split
  · rfl
  · split
    · rfl
    · rfl

/-- A successful association-list lookup finds a pair in the list. -/
theorem lookup_mem {α β : Type} [BEq α] [LawfulBEq α] {l : List (α × β)}
    {k : α} {v : β} (h : l.lookup k = some v) : (k, v) ∈ l := by
  induction l with
  | nil => exact Option.noConfusion h
  | cons p t ih =>
    obtain ⟨a, b⟩ := p
    cases hk : (k == a) with
    | true =>
      simp only [List.lookup, hk, Option.some.injEq] at h
      subst h
      exact (eq_of_beq hk) ▸ List.mem_cons_self _ _
    | false =>
      simp only [List.lookup, hk] at h
      exact List.mem_cons_of_mem _ (ih h)

theorem EXIF_ROT_MAP_range (a o v : Nat) (h : EXIF_ROT_MAP a o = some v) :
    0 < v ∧ v < 9 := by
  unfold EXIF_ROT_MAP at h
  cases ht : EXIF_ROT_MAP_TABLE.lookup a with
  | none => rw [ht] at h; exact Option.noConfusion h
  | some m =>
    rw [ht] at h
    have h2 : m.lookup o = some v := h
    have hmem := lookup_mem ht
    have hv := lookup_mem h2
    simp only [EXIF_ROT_MAP_TABLE, List.mem_cons, List.not_mem_nil,
      Prod.mk.injEq, or_false] at hmem
    rcases hmem with ⟨rfl, rfl⟩ | ⟨rfl, rfl⟩ | ⟨rfl, rfl⟩ <;>
      (simp only [List.mem_cons, List.not_mem_nil, Prod.mk.injEq, or_false] at hv; omega)

theorem EXIF_FLIP_MAP_range (d : String) (o v : Nat)
    (h : EXIF_FLIP_MAP d o = some v) : 0 < v ∧ v < 9 := by
  unfold EXIF_FLIP_MAP at h
  cases ht : EXIF_FLIP_MAP_TABLE.lookup d with
  | none => rw [ht] at h; exact Option.noConfusion h
  | some m =>
    rw [ht] at h
    have h2 : m.lookup o = some v := h
    have hmem := lookup_mem ht
    have hv := lookup_mem h2
    simp only [EXIF_FLIP_MAP_TABLE, List.mem_cons, List.not_mem_nil,
      Prod.mk.injEq, or_false] at hmem
    rcases hmem with ⟨rfl, rfl⟩ | ⟨rfl, rfl⟩ <;>
      (simp only [List.mem_cons, List.not_mem_nil, Prod.mk.injEq, or_false] at hv; omega)

theorem EXIF_TRANSPOSE_MAP_range (o v : Nat)
    (h : EXIF_TRANSPOSE_MAP o = some v) : 0 < v ∧ v < 9 := by
  unfold EXIF_TRANSPOSE_MAP at h
  have hv := lookup_mem h
  simp only [EXIF_TRANSPOSE_MAP_TABLE, List.mem_cons, List.not_mem_nil,
    Prod.mk.injEq, or_false] at hv
  omega

theorem EXIF_TRANVERSE_MAP_range (o v : Nat)
    (h : EXIF_TRANVERSE_MAP o = some v) : 0 < v ∧ v < 9 := by
  unfold EXIF_TRANVERSE_MAP at h
  have hv := lookup_mem h
  simp only [EXIF_TRANVERSE_MAP_TABLE, List.mem_cons, List.not_mem_nil,
    Prod.mk.injEq, or_false] at hv
  omega

/-- Unfolding equation: the thumbnail step on an image without an
embedded thumbnail is a no-op. -/
theorem update_thumbnail_none_eq (w hh : Nat) (o : Option Nat) :
    update_thumbnail (Img.mk w hh o none) = .ok (Img.mk w hh o none) := rfl

/-- Unfolding equation: the thumbnail step on an image with an embedded
thumbnail. -/
theorem update_thumbnail_some_eq (w hh : Nat) (o : Option Nat) (t : Img) :
    update_thumbnail (Img.mk w hh o (some t)) =
      (if target_width (Img.mk w hh o (some t)) > w ∧
          target_height (Img.mk w hh o (some t)) > hh then
        .ok (Img.mk w hh o (some t))
      else
        match downscale_aux (Img.mk w hh o (some t))
            (target_width (Img.mk w hh o (some t)))
            (target_height (Img.mk w hh o (some t))) 75 with
        | .error e => .error e
        | .ok updated => set_exif_thumbnail (Img.mk w hh o (some t)) updated) := rfl

/-- Unfolding equation: the thumbnail setter on an image with an
existing thumbnail overwrites the thumbnail in place. -/
theorem set_exif_thumbnail_some_eq (w hh : Nat) (o : Option Nat) (t u : Img) :
    set_exif_thumbnail (Img.mk w hh o (some t)) u =
      .ok (Img.mk w hh o (some u)) := rfl

/-- A successful thumbnail consistency step never changes the pixel
dimensions or the orientation tag of the handle it runs on. -/
theorem update_thumbnail_ok (img r : Img) (h : update_thumbnail img = .ok r) :
    r.width = img.width ∧ r.height = img.height ∧
      r.exif_orientation = img.exif_orientation := by
  cases img with
  | mk w hh o t =>
    cases t with
    | none =>
      rw [update_thumbnail_none_eq] at h
      injection h with h
      subst h
      exact ⟨rfl, rfl, rfl⟩
    | some tt =>
      rw [update_thumbnail_some_eq] at h
      split_ifs at h with hskip
      · injection h with h
        subst h
        exact ⟨rfl, rfl, rfl⟩
      · generalize downscale_aux (Img.mk w hh o (some tt))
          (target_width (Img.mk w hh o (some tt)))
          (target_height (Img.mk w hh o (some tt))) 75 = d at h
        cases d with
        | error e => injection h
        | ok u =>
          rw [show (match (Except.ok u : Except Err Img) with
                | .error e => (.error e : Except Err Img)
                | .ok updated =>
                    set_exif_thumbnail (Img.mk w hh o (some tt)) updated) =
              set_exif_thumbnail (Img.mk w hh o (some tt)) u from rfl,
            set_exif_thumbnail_some_eq] at h
          injection h with h
          subst h
          exact ⟨rfl, rfl, rfl⟩

/-- Behavior of the shared "optionally rewrite the orientation, then run
the thumbnail step" tail of the four orientation-propagating transforms,
in the propagating case: on success the looked-up map value was written
(after passing the 1..8 setter validation) and survives the thumbnail
step. -/
theorem step_then_update_ok (m : Option Nat) (img1 r : Img)
    (h : (match (match m with
          | none => Except.error Err.keyError
          | some v => set_exif_orientation img1 v) with
        | .error e => (.error e : Except Err Img)
        | .ok img2 => update_thumbnail img2) = .ok r) :
    ∃ v, m = some v ∧ 0 < v ∧ v < 9 ∧ r.exif_orientation = some v ∧
      update_thumbnail
        (Img.mk img1.width img1.height (some v) img1.exif_thumbnail) = .ok r := by
  cases m with
  | none => exact Except.noConfusion h
  | some v =>
    have h3 : (match set_exif_orientation img1 v with
        | .error e => (.error e : Except Err Img)
        | .ok img2 => update_thumbnail img2) = .ok r := h
    by_cases hv : 0 < v ∧ v < 9
    · have e1 : set_exif_orientation img1 v =
          .ok (Img.mk img1.width img1.height (some v) img1.exif_thumbnail) := by
        unfold set_exif_orientation
        rw [if_pos hv]
      rw [e1] at h3
      have h2 : update_thumbnail
          (Img.mk img1.width img1.height (some v) img1.exif_thumbnail) = .ok r := h3
      refine ⟨v, rfl, hv.1, hv.2, ?_, h2⟩
      rw [(update_thumbnail_ok _ _ h2).2.2]
      rfl
    · have e1 : set_exif_orientation img1 v = .error Err.invalidParameter := by
        unfold set_exif_orientation
        rw [if_neg hv]
      rw [e1] at h3
      exact Except.noConfusion h3

/-- On success of `rotate` with orientation propagation, the written
orientation is the `EXIF_ROT_MAP` image of the source orientation
(defaulted through Python `or 1`). -/
theorem rotate_true_ok (img : Img) (a : Nat) (r : Img)
    (h : rotate img a true = .ok r) :
    ∃ v, EXIF_ROT_MAP a (orDefault img.exif_orientation) = some v ∧
      r.exif_orientation = some v ∧
      update_thumbnail (Img.mk (Transformation_rotate img a).width
        (Transformation_rotate img a).height (some v)
        (Transformation_rotate img a).exif_thumbnail) = .ok r := by
  unfold rotate at h
  by_cases hval : ¬(a = 90 ∨ a = 180 ∨ a = 270)
  · rw [if_pos hval] at h
    exact Except.noConfusion h
  · rw [if_neg hval] at h
    have h2 : (match (match EXIF_ROT_MAP a
          (orDefault ((Transformation_rotate img a).exif_orientation)) with
        | none => Except.error Err.keyError
        | some v => set_exif_orientation (Transformation_rotate img a) v) with
        | .error e => (.error e : Except Err Img)
        | .ok img2 => update_thumbnail img2) = .ok r := h
    obtain ⟨v, hm, _, _, hr, hu⟩ := step_then_update_ok _ _ _ h2
    rw [Transformation_rotate_exif_orientation] at hm
    exact ⟨v, hm, hr, hu⟩

/-- On success of `rotate` without orientation propagation, the
orientation is untouched and the result is the thumbnail step applied to
the codec output. -/
theorem rotate_false_ok (img : Img) (a : Nat) (r : Img)
    (h : rotate img a false = .ok r) :
    r.exif_orientation = img.exif_orientation ∧
      update_thumbnail (Transformation_rotate img a) = .ok r := by
  unfold rotate at h
  by_cases hval : ¬(a = 90 ∨ a = 180 ∨ a = 270)
  · rw [if_pos hval] at h
    exact Except.noConfusion h
  · rw [if_neg hval] at h
    have h2 : update_thumbnail (Transformation_rotate img a) = .ok r := h
    refine ⟨?_, h2⟩
    rw [(update_thumbnail_ok _ _ h2).2.2, Transformation_rotate_exif_orientation]

/-- On success of `flip` with orientation propagation, the written
orientation is the `EXIF_FLIP_MAP` image of the source orientation. -/
theorem flip_true_ok (img : Img) (d : String) (r : Img)
    (h : flip img d true = .ok r) :
    ∃ v, EXIF_FLIP_MAP d (orDefault img.exif_orientation) = some v ∧
      r.exif_orientation = some v ∧
      update_thumbnail (Img.mk (Transformation_flip img d).width
        (Transformation_flip img d).height (some v)
        (Transformation_flip img d).exif_thumbnail) = .ok r := by
  unfold flip at h
  by_cases hval : ¬(d = "horizontal" ∨ d = "vertical")
  · rw [if_pos hval] at h
    exact Except.noConfusion h
  · rw [if_neg hval] at h
    have h2 : (match (match EXIF_FLIP_MAP d
          (orDefault ((Transformation_flip img d).exif_orientation)) with
        | none => Except.error Err.keyError
        | some v => set_exif_orientation (Transformation_flip img d) v) with
        | .error e => (.error e : Except Err Img)
        | .ok img2 => update_thumbnail img2) = .ok r := h
    obtain ⟨v, hm, _, _, hr, hu⟩ := step_then_update_ok _ _ _ h2
    rw [Transformation_flip_exif_orientation] at hm
    exact ⟨v, hm, hr, hu⟩

/-- On success of `flip` without orientation propagation, the
orientation is untouched and the result is the thumbnail step applied to
the codec output. -/
theorem flip_false_ok (img : Img) (d : String) (r : Img)
    (h : flip img d false = .ok r) :
    r.exif_orientation = img.exif_orientation ∧
      update_thumbnail (Transformation_flip img d) = .ok r := by
  unfold flip at h
  by_cases hval : ¬(d = "horizontal" ∨ d = "vertical")
  · rw [if_pos hval] at h
    exact Except.noConfusion h
  · rw [if_neg hval] at h
    have h2 : update_thumbnail (Transformation_flip img d) = .ok r := h
    refine ⟨?_, h2⟩
    rw [(update_thumbnail_ok _ _ h2).2.2, Transformation_flip_exif_orientation]

/-- On success of `transpose` with orientation propagation, the written
orientation is the `EXIF_TRANSPOSE_MAP` image of the source
orientation. -/
theorem transpose_true_ok (img : Img) (r : Img)
    (h : transpose img true = .ok r) :
    ∃ v, EXIF_TRANSPOSE_MAP (orDefault img.exif_orientation) = some v ∧
      r.exif_orientation = some v ∧
      update_thumbnail (Img.mk (Transformation_transpose img).width
        (Transformation_transpose img).height (some v)
        (Transformation_transpose img).exif_thumbnail) = .ok r := by
  unfold transpose at h
  have h2 : (match (match EXIF_TRANSPOSE_MAP
        (orDefault ((Transformation_transpose img).exif_orientation)) with
      | none => Except.error Err.keyError
      | some v => set_exif_orientation (Transformation_transpose img) v) with
      | .error e => (.error e : Except Err Img)
      | .ok img2 => update_thumbnail img2) = .ok r := h
  obtain ⟨v, hm, _, _, hr, hu⟩ := step_then_update_ok _ _ _ h2
  rw [Transformation_transpose_exif_orientation] at hm
  exact ⟨v, hm, hr, hu⟩

/-- On success of `transpose` without orientation propagation, the
orientation is untouched and the result is the thumbnail step applied to
the codec output. -/
theorem transpose_false_ok (img : Img) (r : Img)
    (h : transpose img false = .ok r) :
    r.exif_orientation = img.exif_orientation ∧
      update_thumbnail (Transformation_transpose img) = .ok r := by
  unfold transpose at h
  have h2 : update_thumbnail (Transformation_transpose img) = .ok r := h
  refine ⟨?_, h2⟩
  rw [(update_thumbnail_ok _ _ h2).2.2, Transformation_transpose_exif_orientation]

/-- On success of `transverse` with orientation propagation, the written
orientation is the `EXIF_TRANVERSE_MAP` image of the source
orientation. -/
theorem transverse_true_ok (img : Img) (r : Img)
    (h : transverse img true = .ok r) :
    ∃ v, EXIF_TRANVERSE_MAP (orDefault img.exif_orientation) = some v ∧
      r.exif_orientation = some v ∧
      update_thumbnail (Img.mk (Transformation_transverse img).width
        (Transformation_transverse img).height (some v)
        (Transformation_transverse img).exif_thumbnail) = .ok r := by
  unfold transverse at h
  have h2 : (match (match EXIF_TRANVERSE_MAP
        (orDefault ((Transformation_transverse img).exif_orientation)) with
      | none => Except.error Err.keyError
      | some v => set_exif_orientation (Transformation_transverse img) v) with
      | .error e => (.error e : Except Err Img)
      | .ok img2 => update_thumbnail img2) = .ok r := h
  obtain ⟨v, hm, _, _, hr, hu⟩ := step_then_update_ok _ _ _ h2
  rw [Transformation_transverse_exif_orientation] at hm
  exact ⟨v, hm, hr, hu⟩

/-- On success of `transverse` without orientation propagation, the
orientation is untouched and the result is the thumbnail step applied to
the codec output. -/
theorem transverse_false_ok (img : Img) (r : Img)
    (h : transverse img false = .ok r) :
    r.exif_orientation = img.exif_orientation ∧
      update_thumbnail (Transformation_transverse img) = .ok r := by
  unfold transverse at h
  have h2 : update_thumbnail (Transformation_transverse img) = .ok r := h
  refine ⟨?_, h2⟩
  rw [(update_thumbnail_ok _ _ h2).2.2, Transformation_transverse_exif_orientation]

/-! ### Claim theorems -/

/-- Totality into {1..8}, injectivity and surjectivity on {1..8} of an
orientation permutation table. -/
def bijOn18 (f : Nat → Option Nat) : Prop :=
  (∀ o ∈ Finset.Icc 1 8, ∃ v ∈ Finset.Icc 1 8, f o = some v) ∧
  (∀ o1 ∈ Finset.Icc 1 8, ∀ o2 ∈ Finset.Icc 1 8, f o1 = f o2 → o1 = o2) ∧
  (∀ v ∈ Finset.Icc 1 8, ∃ o ∈ Finset.Icc 1 8, f o = some v)

/-- C1: each geometric operation's orientation permutation yields exactly
the value given by the spec's generator tables (Rotate 90: 1→8, 8→3,
3→6, 6→1, 2→7, 7→4, 4→5, 5→2; Rotate 180: 1→3, 3→1, 2→4, 4→2, 5→7,
7→5, 6→8, 8→6; Rotate 270: 1→6, 6→3, 3→8, 8→1, 2→5, 5→4, 4→7, 7→2;
flip horizontal: 1→2, 2→1, 3→4, 4→3, 5→6, 6→5, 7→8, 8→7; flip vertical:
1→4, 4→1, 2→3, 3→2, 5→8, 8→5, 6→7, 7→6; transpose: 1→5, 5→1, 2→6, 6→2,
3→7, 7→3, 4→8, 8→4; transverse: 1→7, 7→1, 2→8, 8→2, 3→5, 5→3, 4→6,
6→4), and each of the seven maps is a bijection on {1..8}. -/
theorem claim_C1_generator_tables :
    (EXIF_ROT_MAP 90 1 = some 8 ∧ EXIF_ROT_MAP 90 8 = some 3 ∧
     EXIF_ROT_MAP 90 3 = some 6 ∧ EXIF_ROT_MAP 90 6 = some 1 ∧
     EXIF_ROT_MAP 90 2 = some 7 ∧ EXIF_ROT_MAP 90 7 = some 4 ∧
     EXIF_ROT_MAP 90 4 = some 5 ∧ EXIF_ROT_MAP 90 5 = some 2) ∧
    (EXIF_ROT_MAP 180 1 = some 3 ∧ EXIF_ROT_MAP 180 3 = some 1 ∧
     EXIF_ROT_MAP 180 2 = some 4 ∧ EXIF_ROT_MAP 180 4 = some 2 ∧
     EXIF_ROT_MAP 180 5 = some 7 ∧ EXIF_ROT_MAP 180 7 = some 5 ∧
     EXIF_ROT_MAP 180 6 = some 8 ∧ EXIF_ROT_MAP 180 8 = some 6) ∧
    (EXIF_ROT_MAP 270 1 = some 6 ∧ EXIF_ROT_MAP 270 6 = some 3 ∧
     EXIF_ROT_MAP 270 3 = some 8 ∧ EXIF_ROT_MAP 270 8 = some 1 ∧
     EXIF_ROT_MAP 270 2 = some 5 ∧ EXIF_ROT_MAP 270 5 = some 4 ∧
     EXIF_ROT_MAP 270 4 = some 7 ∧ EXIF_ROT_MAP 270 7 = some 2) ∧
    (EXIF_FLIP_MAP "horizontal" 1 = some 2 ∧ EXIF_FLIP_MAP "horizontal" 2 = some 1 ∧
     EXIF_FLIP_MAP "horizontal" 3 = some 4 ∧ EXIF_FLIP_MAP "horizontal" 4 = some 3 ∧
     EXIF_FLIP_MAP "horizontal" 5 = some 6 ∧ EXIF_FLIP_MAP "horizontal" 6 = some 5 ∧
     EXIF_FLIP_MAP "horizontal" 7 = some 8 ∧ EXIF_FLIP_MAP "horizontal" 8 = some 7) ∧
    (EXIF_FLIP_MAP "vertical" 1 = some 4 ∧ EXIF_FLIP_MAP "vertical" 4 = some 1 ∧
     EXIF_FLIP_MAP "vertical" 2 = some 3 ∧ EXIF_FLIP_MAP "vertical" 3 = some 2 ∧
     EXIF_FLIP_MAP "vertical" 5 = some 8 ∧ EXIF_FLIP_MAP "vertical" 8 = some 5 ∧
     EXIF_FLIP_MAP "vertical" 6 = some 7 ∧ EXIF_FLIP_MAP "vertical" 7 = some 6) ∧
    (EXIF_TRANSPOSE_MAP 1 = some 5 ∧ EXIF_TRANSPOSE_MAP 5 = some 1 ∧
     EXIF_TRANSPOSE_MAP 2 = some 6 ∧ EXIF_TRANSPOSE_MAP 6 = some 2 ∧
     EXIF_TRANSPOSE_MAP 3 = some 7 ∧ EXIF_TRANSPOSE_MAP 7 = some 3 ∧
     EXIF_TRANSPOSE_MAP 4 = some 8 ∧ EXIF_TRANSPOSE_MAP 8 = some 4) ∧
    (EXIF_TRANVERSE_MAP 1 = some 7 ∧ EXIF_TRANVERSE_MAP 7 = some 1 ∧
     EXIF_TRANVERSE_MAP 2 = some 8 ∧ EXIF_TRANVERSE_MAP 8 = some 2 ∧
     EXIF_TRANVERSE_MAP 3 = some 5 ∧ EXIF_TRANVERSE_MAP 5 = some 3 ∧
     EXIF_TRANVERSE_MAP 4 = some 6 ∧ EXIF_TRANVERSE_MAP 6 = some 4) ∧
    bijOn18 (EXIF_ROT_MAP 90) ∧ bijOn18 (EXIF_ROT_MAP 180) ∧
    bijOn18 (EXIF_ROT_MAP 270) ∧ bijOn18 (EXIF_FLIP_MAP "horizontal") ∧
    bijOn18 (EXIF_FLIP_MAP "vertical") ∧ bijOn18 EXIF_TRANSPOSE_MAP ∧
    bijOn18 EXIF_TRANVERSE_MAP := by
  unfold bijOn18
  refine ⟨?_, ?_, ?_, ?_, ?_, ?_, ?_, ?_, ?_, ?_, ?_, ?_, ?_, ?_⟩ <;> decide

/-- Witness for C1 at concrete table entries. -/
theorem claim_C1_generator_tables_witness :
    EXIF_ROT_MAP 90 1 = some 8 ∧ EXIF_ROT_MAP 90 8 = some 3 :=
  ⟨claim_C1_generator_tables.1.1, claim_C1_generator_tables.1.2.1⟩

/-- C8: for every orientation o in {1..8}, four applications of the
Rotate90 permutation are the identity, two applications of the Transpose
permutation are the identity, two applications of the FlipH permutation
are the identity, and the Rotate180 permutation equals FlipH followed by
FlipV. -/
theorem claim_C8_order_properties :
    ∀ o ∈ Finset.Icc (1 : Nat) 8,
      (((EXIF_ROT_MAP 90 o).bind (EXIF_ROT_MAP 90)).bind
          (EXIF_ROT_MAP 90)).bind (EXIF_ROT_MAP 90) = some o ∧
      (EXIF_TRANSPOSE_MAP o).bind EXIF_TRANSPOSE_MAP = some o ∧
      (EXIF_FLIP_MAP "horizontal" o).bind (EXIF_FLIP_MAP "horizontal") = some o ∧
      EXIF_ROT_MAP 180 o =
        (EXIF_FLIP_MAP "horizontal" o).bind (EXIF_FLIP_MAP "vertical") := by
  decide

/-- Witness for C8 at the concrete orientation 3. -/
theorem claim_C8_order_properties_witness :
    (3 : Nat) ∈ Finset.Icc (1 : Nat) 8 ∧
      ((((EXIF_ROT_MAP 90 3).bind (EXIF_ROT_MAP 90)).bind
          (EXIF_ROT_MAP 90)).bind (EXIF_ROT_MAP 90) = some 3 ∧
       (EXIF_TRANSPOSE_MAP 3).bind EXIF_TRANSPOSE_MAP = some 3 ∧
       (EXIF_FLIP_MAP "horizontal" 3).bind (EXIF_FLIP_MAP "horizontal") = some 3 ∧
       EXIF_ROT_MAP 180 3 =
         (EXIF_FLIP_MAP "horizontal" 3).bind (EXIF_FLIP_MAP "vertical")) :=
  ⟨by decide, claim_C8_order_properties 3 (by decide)⟩

/-- A 400-by-200 image carrying a stale 5-by-5 embedded thumbnail, on
which the thumbnail consistency step would rewrite the thumbnail. -/
def staleExample : Img := Img.mk 400 200 none (some (Img.mk 5 5 none none))

/-- C5: downscale to the current exact dimensions returns the very same
handle with bit-identical state — no codec call and no thumbnail
consistency step (demonstrated on an image whose stale thumbnail the
step would rewrite, yet which identity-downscale returns untouched). -/
theorem claim_C5_downscale_identity :
    (∀ (img : Img) (q : Nat), downscale img img.width img.height q = .ok img) ∧
    downscale staleExample 400 200 75 = .ok staleExample ∧
    update_thumbnail staleExample ≠ .ok staleExample := by
  refine ⟨?_, ?_, ?_⟩
  · intro img q
    unfold downscale
    rw [if_pos ⟨rfl, rfl⟩]
  · rfl
  · intro h
    have e : update_thumbnail staleExample =
        .ok (Img.mk 400 200 none (some (Img.mk 160 80 none none))) := rfl
    rw [e] at h
    injection h with h
    injection h with hw hh ho ht
    injection ht with ht
    injection ht with h1 h2 h3 h4
    exact absurd h1 (by decide)

/-- Witness for C5 at a concrete handle. -/
theorem claim_C5_downscale_identity_witness :
    downscale (Img.mk 7 9 none none) 7 9 75 = .ok (Img.mk 7 9 none none) :=
  claim_C5_downscale_identity.1 (Img.mk 7 9 none none) 75

/-- C7: downscale with either target dimension exceeding the current
dimension fails with InvalidParameter, before any codec invocation. -/
theorem claim_C7_upscale_rejection (img : Img) (w h q : Nat)
    (hup : w > img.width ∨ h > img.height) :
    downscale img w h q = .error Err.invalidParameter := by
  unfold downscale
  have hne : ¬(w = img.width ∧ h = img.height) := by
    rintro ⟨rfl, rfl⟩
    rcases hup with h1 | h1 <;> omega
  rw [if_neg hne, if_pos hup]

/-- Witness for C7 at a concrete handle and target. -/
theorem claim_C7_upscale_rejection_witness :
    ((161 : Nat) > (Img.mk 160 80 none none).width ∨
      (80 : Nat) > (Img.mk 160 80 none none).height) ∧
    downscale (Img.mk 160 80 none none) 161 80 75 = .error Err.invalidParameter :=
  ⟨Or.inl (by decide),
   claim_C7_upscale_rejection (Img.mk 160 80 none none) 161 80 75 (Or.inl (by decide))⟩

/-- C9: the orientation setter rejects any value outside 1..8 with an
error before writing and accepts in-range values; every output of the
four generator tables lies in {1..8}; and an absent orientation tag is
reported as a distinct no-value state — `exif_autotransform` fails with
MissingMetadata on it rather than reading a number. -/
theorem claim_C9_orientation_range (img : Img) (v : Nat) :
    (¬(0 < v ∧ v < 9) → set_exif_orientation img v = .error Err.invalidParameter) ∧
    ((0 < v ∧ v < 9) → set_exif_orientation img v =
      .ok (Img.mk img.width img.height (some v) img.exif_thumbnail)) ∧
    (∀ a o u, EXIF_ROT_MAP a o = some u → 1 ≤ u ∧ u ≤ 8) ∧
    (∀ d o u, EXIF_FLIP_MAP d o = some u → 1 ≤ u ∧ u ≤ 8) ∧
    (∀ o u, EXIF_TRANSPOSE_MAP o = some u → 1 ≤ u ∧ u ≤ 8) ∧
    (∀ o u, EXIF_TRANVERSE_MAP o = some u → 1 ≤ u ∧ u ≤ 8) ∧
    (img.exif_orientation = none →
      exif_autotransform img = .error Err.missingMetadata) := by
  refine ⟨?_, ?_, ?_, ?_, ?_, ?_, ?_⟩
  · intro hv
    unfold set_exif_orientation
    rw [if_neg hv]
  · intro hv
    unfold set_exif_orientation
    rw [if_pos hv]
  · intro a o u h
    have := EXIF_ROT_MAP_range a o u h
    omega
  · intro d o u h
    have := EXIF_FLIP_MAP_range d o u h
    omega
  · intro o u h
    have := EXIF_TRANSPOSE_MAP_range o u h
    omega
  · intro o u h
    have := EXIF_TRANVERSE_MAP_range o u h
    omega
  · intro ho
    unfold exif_autotransform
    rw [ho]

/-- Witness for C9 at a concrete handle and out-of-range value. -/
theorem claim_C9_orientation_range_witness :
    set_exif_orientation (Img.mk 10 20 none none) 12 = .error Err.invalidParameter ∧
    exif_autotransform (Img.mk 10 20 none none) = .error Err.missingMetadata :=
  ⟨(claim_C9_orientation_range (Img.mk 10 20 none none) 12).1 (by decide),
   (claim_C9_orientation_range (Img.mk 10 20 none none) 12).2.2.2.2.2.2 rfl⟩

/-- An `Except.map some` that succeeds comes from a success of the
underlying computation. -/
theorem map_some_ok {e : Except Err Img} {r : Img}
    (h : e.map some = Except.ok (some r)) : e = .ok r := by
  cases e with
  | error x => exact Except.noConfusion h
  | ok x =>
    have h2 : (Except.ok (some x) : Except Err (Option Img)) = .ok (some r) := h
    injection h2 with h3
    injection h3 with h4
    rw [h4]

/-- C2: for each transform among rotate(90|180|270), flip(horizontal or
vertical), transpose and transverse, when orientation propagation is
requested the orientation on the resulting image is the operation's
generator permutation applied to the current orientation (an absent tag
defaulting to 1); without propagation the resulting orientation equals
the source's (no orientation is written). -/
theorem claim_C2_orientation_propagation (img : Img)
    (hor : img.exif_orientation = none ∨
      ∃ o, img.exif_orientation = some o ∧ 1 ≤ o ∧ o ≤ 8) :
    (∀ a r, rotate img a true = .ok r →
      r.exif_orientation = EXIF_ROT_MAP a (img.exif_orientation.getD 1)) ∧
    (∀ d r, flip img d true = .ok r →
      r.exif_orientation = EXIF_FLIP_MAP d (img.exif_orientation.getD 1)) ∧
    (∀ r, transpose img true = .ok r →
      r.exif_orientation = EXIF_TRANSPOSE_MAP (img.exif_orientation.getD 1)) ∧
    (∀ r, transverse img true = .ok r →
      r.exif_orientation = EXIF_TRANVERSE_MAP (img.exif_orientation.getD 1)) ∧
    (∀ a r, rotate img a false = .ok r →
      r.exif_orientation = img.exif_orientation) ∧
    (∀ d r, flip img d false = .ok r →
      r.exif_orientation = img.exif_orientation) ∧
    (∀ r, transpose img false = .ok r →
      r.exif_orientation = img.exif_orientation) ∧
    (∀ r, transverse img false = .ok r →
      r.exif_orientation = img.exif_orientation) := by
  have hod : orDefault img.exif_orientation = img.exif_orientation.getD 1 := by
    rcases hor with h | ⟨o, h, h1, h8⟩
    · rw [h]
      rfl
    · rw [h]
      cases o with
      | zero => exact absurd h1 (by decide)
      | succ n => rfl
  refine ⟨?_, ?_, ?_, ?_, ?_, ?_, ?_, ?_⟩
  · intro a r h
    obtain ⟨v, hm, hr, _⟩ := rotate_true_ok img a r h
    rw [hr, ← hod, hm]
  · intro d r h
    obtain ⟨v, hm, hr, _⟩ := flip_true_ok img d r h
    rw [hr, ← hod, hm]
  · intro r h
    obtain ⟨v, hm, hr, _⟩ := transpose_true_ok img r h
    rw [hr, ← hod, hm]
  · intro r h
    obtain ⟨v, hm, hr, _⟩ := transverse_true_ok img r h
    rw [hr, ← hod, hm]
  · intro a r h
    exact (rotate_false_ok img a r h).1
  · intro d r h
    exact (flip_false_ok img d r h).1
  · intro r h
    exact (transpose_false_ok img r h).1
  · intro r h
    exact (transverse_false_ok img r h).1

/-- Witness for C2: rotating a 200-by-100 image with orientation 6 by
90 degrees with propagation writes orientation 1 on the result. -/
theorem claim_C2_orientation_propagation_witness :
    rotate (Img.mk 200 100 (some 6) none) 90 true =
      .ok (Img.mk 100 200 (some 1) none) ∧
    (Img.mk 100 200 (some 1) none).exif_orientation =
      EXIF_ROT_MAP 90 ((Img.mk 200 100 (some 6) none).exif_orientation.getD 1) :=
  ⟨rfl,
   (claim_C2_orientation_propagation (Img.mk 200 100 (some 6) none)
      (Or.inr ⟨6, rfl, by decide, by decide⟩)).1 90
      (Img.mk 100 200 (some 1) none) rfl⟩

/-- C4: exif_autotransform maps each orientation to exactly one
corrective operation invoked with propagation enabled (1 returns the
same handle, 2 flip horizontal, 3 rotate 180, 4 flip vertical,
5 transpose, 6 rotate 90, 7 transverse, 8 rotate 270); for every
readable orientation in {1..8} a returned image has orientation 1; and
it fails with MissingMetadata when no orientation tag is present. -/
theorem claim_C4_exif_autotransform (img : Img) :
    (img.exif_orientation = none →
      exif_autotransform img = .error Err.missingMetadata) ∧
    (img.exif_orientation = some 1 → exif_autotransform img = .ok (some img)) ∧
    (img.exif_orientation = some 2 →
      exif_autotransform img = (flip img "horizontal" true).map some) ∧
    (img.exif_orientation = some 3 →
      exif_autotransform img = (rotate img 180 true).map some) ∧
    (img.exif_orientation = some 4 →
      exif_autotransform img = (flip img "vertical" true).map some) ∧
    (img.exif_orientation = some 5 →
      exif_autotransform img = (transpose img true).map some) ∧
    (img.exif_orientation = some 6 →
      exif_autotransform img = (rotate img 90 true).map some) ∧
    (img.exif_orientation = some 7 →
      exif_autotransform img = (transverse img true).map some) ∧
    (img.exif_orientation = some 8 →
      exif_autotransform img = (rotate img 270 true).map some) ∧
    (∀ o r, img.exif_orientation = some o → 1 ≤ o → o ≤ 8 →
      exif_autotransform img = .ok (some r) → r.exif_orientation = some 1) := by
  refine ⟨?_, ?_, ?_, ?_, ?_, ?_, ?_, ?_, ?_, ?_⟩
  · intro ho
    unfold exif_autotransform
    rw [ho]
  · intro ho
    unfold exif_autotransform
    rw [ho]
    rfl
  · intro ho
    unfold exif_autotransform
    rw [ho]
    rfl
  · intro ho
    unfold exif_autotransform
    rw [ho]
    rfl
  · intro ho
    unfold exif_autotransform
    rw [ho]
    rfl
  · intro ho
    unfold exif_autotransform
    rw [ho]
    rfl
  · intro ho
    unfold exif_autotransform
    rw [ho]
    rfl
  · intro ho
    unfold exif_autotransform
    rw [ho]
    rfl
  · intro ho
    unfold exif_autotransform
    rw [ho]
    rfl
  · intro o r ho h1 h8 h
    unfold exif_autotransform at h
    rw [ho] at h
    interval_cases o
    · have h2 : (Except.ok (some img) : Except Err (Option Img)) = .ok (some r) := h
      injection h2 with h3
      injection h3 with h4
      rw [← h4, ho]
    · have h2 : (flip img "horizontal" true).map some = Except.ok (some r) := h
      obtain ⟨v, hm, hr, _⟩ := flip_true_ok img "horizontal" r (map_some_ok h2)
      rw [ho] at hm
      rw [show EXIF_FLIP_MAP "horizontal" (orDefault (some 2)) = some 1 from rfl] at hm
      injection hm with hv
      rw [hr, ← hv]
    · have h2 : (rotate img 180 true).map some = Except.ok (some r) := h
      obtain ⟨v, hm, hr, _⟩ := rotate_true_ok img 180 r (map_some_ok h2)
      rw [ho] at hm
      rw [show EXIF_ROT_MAP 180 (orDefault (some 3)) = some 1 from rfl] at hm
      injection hm with hv
      rw [hr, ← hv]
    · have h2 : (flip img "vertical" true).map some = Except.ok (some r) := h
      obtain ⟨v, hm, hr, _⟩ := flip_true_ok img "vertical" r (map_some_ok h2)
      rw [ho] at hm
      rw [show EXIF_FLIP_MAP "vertical" (orDefault (some 4)) = some 1 from rfl] at hm
      injection hm with hv
      rw [hr, ← hv]
    · have h2 : (transpose img true).map some = Except.ok (some r) := h
      obtain ⟨v, hm, hr, _⟩ := transpose_true_ok img r (map_some_ok h2)
      rw [ho] at hm
      rw [show EXIF_TRANSPOSE_MAP (orDefault (some 5)) = some 1 from rfl] at hm
      injection hm with hv
      rw [hr, ← hv]
    · have h2 : (rotate img 90 true).map some = Except.ok (some r) := h
      obtain ⟨v, hm, hr, _⟩ := rotate_true_ok img 90 r (map_some_ok h2)
      rw [ho] at hm
      rw [show EXIF_ROT_MAP 90 (orDefault (some 6)) = some 1 from rfl] at hm
      injection hm with hv
      rw [hr, ← hv]
    · have h2 : (transverse img true).map some = Except.ok (some r) := h
      obtain ⟨v, hm, hr, _⟩ := transverse_true_ok img r (map_some_ok h2)
      rw [ho] at hm
      rw [show EXIF_TRANVERSE_MAP (orDefault (some 7)) = some 1 from rfl] at hm
      injection hm with hv
      rw [hr, ← hv]
    · have h2 : (rotate img 270 true).map some = Except.ok (some r) := h
      obtain ⟨v, hm, hr, _⟩ := rotate_true_ok img 270 r (map_some_ok h2)
      rw [ho] at hm
      rw [show EXIF_ROT_MAP 270 (orDefault (some 8)) = some 1 from rfl] at hm
      injection hm with hv
      rw [hr, ← hv]

/-- Witness for C4: a 200-by-100 image with orientation 6 is
auto-transformed through rotate 90 and ends with orientation 1. -/
theorem claim_C4_exif_autotransform_witness :
    exif_autotransform (Img.mk 200 100 (some 6) none) =
      .ok (some (Img.mk 100 200 (some 1) none)) ∧
    (Img.mk 100 200 (some 1) none).exif_orientation = some 1 :=
  ⟨rfl,
   (claim_C4_exif_autotransform (Img.mk 200 100 (some 6) none)).2.2.2.2.2.2.2.2.2
      6 (Img.mk 100 200 (some 1) none) rfl (by decide) (by decide) rfl⟩

/-- C3 counterexample: a 320-by-58 image with an embedded thumbnail has
width:height exactly 160:29, one of the ratios where CPython's
`int(160/(width/height))` evaluates to 28 while the claim's exact
floor(160*58/320) is 29 — so the program regenerates a 160-by-28
thumbnail, not the 160-by-29 one the claim's formula asserts. -/
theorem claim_C3_counterexample :
    160 * (Img.mk 320 58 none (some (Img.mk 5 5 none none))).height /
      (Img.mk 320 58 none (some (Img.mk 5 5 none none))).width = 29 ∧
    target_height (Img.mk 320 58 none (some (Img.mk 5 5 none none))) = 28 ∧
    update_thumbnail (Img.mk 320 58 none (some (Img.mk 5 5 none none))) =
      .ok (Img.mk 320 58 none (some (Img.mk 160 28 none none))) :=
  ⟨by decide, by decide, rfl⟩

/-- C3 (amended): the thumbnail consistency step on a freshly
transformed handle: no-op when no thumbnail is embedded; target
dimensions fix the longer side at 160, with target_height computed as
CPython computes `int(160/(width/height))` — the exact floor
160*height/width, except one less at the width:height ratios 160:29,
160:53, 80:29, 80:53, 40:29 and 160:119 where double rounding
undershoots; when both targets exceed the primary dimensions
regeneration is skipped and the stale thumbnail bytes stay unchanged;
otherwise the handle is downscaled to the target and the downscaled
image is written as the embedded thumbnail (a failure of that downscale
propagating). -/
theorem claim_C3_update_thumbnail (img : Img) :
    (img.exif_thumbnail = none → update_thumbnail img = .ok img) ∧
    (∀ t, img.exif_thumbnail = some t →
      (target_width img = if img.width > img.height then 160
          else 160 * img.width / img.height) ∧
      (target_height img = if img.width > img.height then
          (if float_target_low img.width img.height then
            160 * img.height / img.width - 1
          else 160 * img.height / img.width) else 160) ∧
      (float_target_low img.width img.height = true ↔
        (29 * img.width = 160 * img.height ∨ 53 * img.width = 160 * img.height ∨
         29 * img.width = 80 * img.height ∨ 53 * img.width = 80 * img.height ∨
         29 * img.width = 40 * img.height ∨ 119 * img.width = 160 * img.height)) ∧
      (target_width img > img.width ∧ target_height img > img.height →
        update_thumbnail img = .ok img) ∧
      (¬(target_width img > img.width ∧ target_height img > img.height) →
        ∀ u, downscale img (target_width img) (target_height img) 75 = .ok u →
          update_thumbnail img =
            .ok (Img.mk img.width img.height img.exif_orientation (some u))) ∧
      (¬(target_width img > img.width ∧ target_height img > img.height) →
        ∀ e, downscale img (target_width img) (target_height img) 75 = .error e →
          update_thumbnail img = .error e)) := by
  cases img with
  | mk w hh o t =>
    refine ⟨?_, ?_⟩
    · intro ht
      simp only [Img.exif_thumbnail_mk] at ht
      subst ht
      exact update_thumbnail_none_eq w hh o
    · intro t2 ht
      simp only [Img.exif_thumbnail_mk] at ht
      subst ht
      simp only [Img.width_mk, Img.height_mk, Img.exif_orientation_mk]
      refine ⟨rfl, rfl, ?_, ?_, ?_, ?_⟩
      · simp only [float_target_low, Bool.or_eq_true, beq_iff_eq]
        tauto
      · intro hskip
        rw [update_thumbnail_some_eq, if_pos hskip]
      · intro hskip u hd
        rw [update_thumbnail_some_eq, if_neg hskip, downscale_aux_eq_downscale, hd]
        exact set_exif_thumbnail_some_eq w hh o t2 u
      · intro hskip e hd
        rw [update_thumbnail_some_eq, if_neg hskip, downscale_aux_eq_downscale, hd]

/-- Witness for C3: a 400-by-200 image with a stale thumbnail gets a
regenerated 160-by-80 thumbnail. -/
theorem claim_C3_update_thumbnail_witness :
    update_thumbnail (Img.mk 400 200 (some 3) (some (Img.mk 5 5 none none))) =
      .ok (Img.mk 400 200 (some 3) (some (Img.mk 160 80 (some 3) none))) :=
  ((claim_C3_update_thumbnail
      (Img.mk 400 200 (some 3) (some (Img.mk 5 5 none none)))).2
    (Img.mk 5 5 none none) rfl).2.2.2.2.1 (by decide)
    (Img.mk 160 80 (some 3) none) rfl

/-- C6 counterexample: on a 300-by-200 image carrying an embedded
thumbnail, the crop to 159-by-1 satisfies the bounds conjunction
(x < width, y < height, x+w ≤ width, y+h ≤ height) yet crop fails,
because the thumbnail consistency step's inner downscale to the
160-by-1 target is a one-sided upscale and raises. -/
theorem claim_C6_crop_counterexample :
    ((0 : Nat) < (Img.mk 300 200 none (some (Img.mk 5 5 none none))).width ∧
     (0 : Nat) < (Img.mk 300 200 none (some (Img.mk 5 5 none none))).height ∧
     0 + 159 ≤ (Img.mk 300 200 none (some (Img.mk 5 5 none none))).width ∧
     0 + 1 ≤ (Img.mk 300 200 none (some (Img.mk 5 5 none none))).height) ∧
    crop (Img.mk 300 200 none (some (Img.mk 5 5 none none))) 0 0 159 1 =
      .error Err.invalidParameter :=
  ⟨by decide, rfl⟩

/-- C6 (amended): crop fails with InvalidParameter whenever the bounds
conjunction fails; when it holds, crop is exactly the thumbnail
consistency step applied to the cropped handle, hence succeeds whenever
that step succeeds — in particular always when the image carries no
embedded thumbnail, and the full-bounds crop succeeds on any
positive-dimension image without an embedded thumbnail. -/
theorem claim_C6_crop_bounds (img : Img) (x y w h : Nat) :
    (¬(x < img.width ∧ y < img.height ∧
        x + w ≤ img.width ∧ y + h ≤ img.height) →
      crop img x y w h = .error Err.invalidParameter) ∧
    ((x < img.width ∧ y < img.height ∧
        x + w ≤ img.width ∧ y + h ≤ img.height) →
      crop img x y w h = update_thumbnail (Transformation_crop img x y w h)) ∧
    (img.exif_thumbnail = none →
      (x < img.width ∧ y < img.height ∧
        x + w ≤ img.width ∧ y + h ≤ img.height) →
      crop img x y w h = .ok (Transformation_crop img x y w h)) ∧
    (img.exif_thumbnail = none → 0 < img.width → 0 < img.height →
      crop img 0 0 img.width img.height =
        .ok (Transformation_crop img 0 0 img.width img.height)) := by
  have key : (x < img.width ∧ y < img.height ∧
      x + w ≤ img.width ∧ y + h ≤ img.height) →
      crop img x y w h = update_thumbnail (Transformation_crop img x y w h) := by
    intro hb
    unfold crop
    rw [if_neg (not_not_intro hb)]
  refine ⟨?_, key, ?_, ?_⟩
  · intro hb
    unfold crop
    rw [if_pos hb]
  · intro ht hb
    rw [key hb, show Transformation_crop img x y w h =
        Img.mk w h img.exif_orientation img.exif_thumbnail from rfl, ht]
    exact update_thumbnail_none_eq w h img.exif_orientation
  · intro ht hw hh
    unfold crop
    rw [if_neg (not_not_intro ⟨hw, hh, by omega, by omega⟩),
      show Transformation_crop img 0 0 img.width img.height =
        Img.mk img.width img.height img.exif_orientation img.exif_thumbnail from rfl,
      ht]
    exact update_thumbnail_none_eq img.width img.height img.exif_orientation

/-- Witness for the amended C6: the full-bounds crop of a 20-by-10
image without a thumbnail succeeds. -/
theorem claim_C6_crop_bounds_witness :
    crop (Img.mk 20 10 none none) 0 0 20 10 =
      .ok (Transformation_crop (Img.mk 20 10 none none) 0 0 20 10) :=
  (claim_C6_crop_bounds (Img.mk 20 10 none none) 0 0 20 10).2.2.2
    rfl (by decide) (by decide)

/-- C10: every successful pixel transform — rotate (180 included), flip,
transpose, transverse, crop, and non-identity downscale, with or without
orientation propagation — runs the thumbnail consistency step on the
transformed handle to produce its result; only the identity-downscale
case skips it (returning the handle unchanged even when the step would
rewrite its stale thumbnail). -/
theorem claim_C10_thumbnail_step_runs (img : Img) :
    (∀ a r, rotate img a false = .ok r →
      update_thumbnail (Transformation_rotate img a) = .ok r) ∧
    (∀ d r, flip img d false = .ok r →
      update_thumbnail (Transformation_flip img d) = .ok r) ∧
    (∀ r, transpose img false = .ok r →
      update_thumbnail (Transformation_transpose img) = .ok r) ∧
    (∀ r, transverse img false = .ok r →
      update_thumbnail (Transformation_transverse img) = .ok r) ∧
    (∀ x y w h r, crop img x y w h = .ok r →
      update_thumbnail (Transformation_crop img x y w h) = .ok r) ∧
    (∀ w h q r, ¬(w = img.width ∧ h = img.height) →
      downscale img w h q = .ok r →
      update_thumbnail (Transformation_scale img w h q) = .ok r) ∧
    (∀ a r, rotate img a true = .ok r →
      ∃ v, update_thumbnail (Img.mk (Transformation_rotate img a).width
        (Transformation_rotate img a).height (some v)
        (Transformation_rotate img a).exif_thumbnail) = .ok r) ∧
    (∀ d r, flip img d true = .ok r →
      ∃ v, update_thumbnail (Img.mk (Transformation_flip img d).width
        (Transformation_flip img d).height (some v)
        (Transformation_flip img d).exif_thumbnail) = .ok r) ∧
    (∀ r, transpose img true = .ok r →
      ∃ v, update_thumbnail (Img.mk (Transformation_transpose img).width
        (Transformation_transpose img).height (some v)
        (Transformation_transpose img).exif_thumbnail) = .ok r) ∧
    (∀ r, transverse img true = .ok r →
      ∃ v, update_thumbnail (Img.mk (Transformation_transverse img).width
        (Transformation_transverse img).height (some v)
        (Transformation_transverse img).exif_thumbnail) = .ok r) ∧
    (∀ q, downscale img img.width img.height q = .ok img) ∧
    (update_thumbnail staleExample ≠ .ok staleExample ∧
      downscale staleExample staleExample.width staleExample.height 75 =
        .ok staleExample) := by
  refine ⟨?_, ?_, ?_, ?_, ?_, ?_, ?_, ?_, ?_, ?_, ?_, ?_, ?_⟩
  · intro a r h
    exact (rotate_false_ok img a r h).2
  · intro d r h
    exact (flip_false_ok img d r h).2
  · intro r h
    exact (transpose_false_ok img r h).2
  · intro r h
    exact (transverse_false_ok img r h).2
  · intro x y w h r hc
    unfold crop at hc
    by_cases hb : ¬(x < img.width ∧ y < img.height ∧
        x + w ≤ img.width ∧ y + h ≤ img.height)
    · rw [if_pos hb] at hc
      exact Except.noConfusion hc
    · rw [if_neg hb] at hc
      exact hc
  · intro w h q r hne hd
    unfold downscale at hd
    rw [if_neg hne] at hd
    by_cases hup : w > img.width ∨ h > img.height
    · rw [if_pos hup] at hd
      exact Except.noConfusion hd
    · rw [if_neg hup] at hd
      exact hd
  · intro a r h
    obtain ⟨v, _, _, hu⟩ := rotate_true_ok img a r h
    exact ⟨v, hu⟩
  · intro d r h
    obtain ⟨v, _, _, hu⟩ := flip_true_ok img d r h
    exact ⟨v, hu⟩
  · intro r h
    obtain ⟨v, _, _, hu⟩ := transpose_true_ok img r h
    exact ⟨v, hu⟩
  · intro r h
    obtain ⟨v, _, _, hu⟩ := transverse_true_ok img r h
    exact ⟨v, hu⟩
  · intro q
    unfold downscale
    rw [if_pos ⟨rfl, rfl⟩]
  · intro h
    have e : update_thumbnail staleExample =
        .ok (Img.mk 400 200 none (some (Img.mk 160 80 none none))) := rfl
    rw [e] at h
    injection h with h
    injection h with hw hh ho ht
    injection ht with ht
    injection ht with h1 h2 h3 h4
    exact absurd h1 (by decide)
  · rfl

/-- Witness for C10: flipping an image with a stale thumbnail runs the
thumbnail step, regenerating the thumbnail at 160 by 80. -/
theorem claim_C10_thumbnail_step_runs_witness :
    update_thumbnail (Transformation_flip staleExample "horizontal") =
      .ok (Img.mk 400 200 none (some (Img.mk 160 80 none none))) :=
  (claim_C10_thumbnail_step_runs staleExample).2.1 "horizontal"
    (Img.mk 400 200 none (some (Img.mk 160 80 none none))) rfl

end Jpegtran
